import Mathlib

/-!
A shallow embedding of the cloud-protocol engine in `protocol.cpp`
(`particle::protocol::Protocol`): message decoding, the received-message
dispatch loop, reply completion, key-change handling, the `begin()`
handshake orchestration and describe posting.  Stateful methods become
pure functions from an explicit environment (results of the external
channel, descriptor and sub-handler calls) and a protocol state to a new
state, a list of observable effects (channel commands, sends, callback
invocations) in program order, and a returned `ProtocolError`.
-/

namespace Protocol

/-- Byte read `buf[i]` from a message buffer (bytes within the message
length); reads model the C accesses of `protocol.cpp`. -/
def byteAt (buf : List Nat) (i : Nat) : Nat := buf.getD i 0

/-- `ProtocolError` values used by `protocol.cpp`.  The numeric values of
the C enum are irrelevant to the embedded code, which only compares
against `NO_ERROR` and `SESSION_RESUMED`; `IO_ERROR` and
`INSUFFICIENT_STORAGE` stand for generic channel failures.  `PANIC` marks
the `SPARK_ASSERT` halt on describe-buffer overflow (the device stops;
no value is actually returned there). -/
inductive ProtocolError where
  | NO_ERROR
  | SESSION_RESUMED
  | MESSAGE_TIMEOUT
  | MISSING_REQUEST_TOKEN
  | IO_ERROR
  | INSUFFICIENT_STORAGE
  | PANIC
  deriving DecidableEq, Repr

export ProtocolError (NO_ERROR SESSION_RESUMED MESSAGE_TIMEOUT MISSING_REQUEST_TOKEN IO_ERROR)

/-- CoAP wire types, encoded in bits 4..5 of the first header byte. -/
inductive CoAPType where
  | CON | NON | ACK | RESET
  deriving DecidableEq, Repr

/-- `CoAPType::is_reply`: ACK and RESET are replies. -/
def CoAPType.is_reply : CoAPType → Bool
  | .ACK => true
  | .RESET => true
  | _ => false

/-- High-level message classification produced by `Messages::decodeType`
(the decoder itself lives outside this translation unit; the dispatch in
`handle_received_message` consumes its result). -/
inductive CoAPMessageType where
  | DESCRIBE | FUNCTION_CALL | VARIABLE_REQUEST | SAVE_BEGIN | UPDATE_BEGIN
  | CHUNK | UPDATE_DONE | EVENT | KEY_CHANGE | SIGNAL_START | SIGNAL_STOP
  | HELLO | TIME | PING | ERROR | NONE
  deriving DecidableEq, Repr

namespace CoAP

/-- `CoAP::type(buf)`: bits 4..5 of byte 0. -/
def type (buf : List Nat) : CoAPType :=
  match (byteAt buf 0 >>> 4) &&& 3 with
  | 0 => .CON
  | 1 => .NON
  | 2 => .ACK
  | _ => .RESET

/-- `CoAP::message_id(buf)`: big-endian 16-bit id at bytes 2..3. -/
def message_id (buf : List Nat) : Nat :=
  byteAt buf 2 * 256 + byteAt buf 3

/-- `CoAP::code(buf)`: byte 1. -/
def code (buf : List Nat) : Nat := byteAt buf 1

/-- Raw token length: low nibble of byte 0 (`buf[0] & 0xF`). -/
def tokenLenRaw (buf : List Nat) : Nat := byteAt buf 0 &&& 0xF

/-- Modelled from the spec: `CoAP::token(buf, &token)` (codec in `coap.h`,
not part of this translation unit) returns the token length from the
header nibble and fills the 32-bit token from bytes 4..7 only when the
length equals `sizeof(token_t) = 4`; otherwise the out-parameter keeps
its initial value 0. -/
def tokenValue (buf : List Nat) : Nat :=
  if tokenLenRaw buf = 4 then
    byteAt buf 4 <<< 24 ||| byteAt buf 5 <<< 16 ||| byteAt buf 6 <<< 8 ||| byteAt buf 7
  else 0

end CoAP

/-- `CoAPCode::INTERNAL_SERVER_ERROR` (CoAP 5.00). -/
def INTERNAL_SERVER_ERROR : Nat := 0xA0

/-- Modelled from the spec: `CoAPCode::is_success` (in `coap.h`, outside
this translation unit) — a response code is a success iff its class
(upper three bits) is 2. -/
def CoAPCode.is_success (code : Nat) : Bool := code >>> 5 == 2

/-- System error kinds used by `notify_message_complete` when completing
an ack handler with an error. -/
inductive SystemError where
  | COAP | COAP_4XX | COAP_5XX
  deriving DecidableEq, Repr

/-- Commands of the channel command surface. -/
inductive ChannelCommand where
  | SAVE_SESSION | LOAD_SESSION | MOVE_SESSION | DISCARD_SESSION
  deriving DecidableEq, Repr

/-- Selectors passed to `descriptor.app_state_selector_info`. -/
inductive AppStateSelector where
  | DESCRIBE_APP | DESCRIBE_SYSTEM | SUBSCRIPTIONS | PROTOCOL_FLAGS
  deriving DecidableEq, Repr

/-- Operations passed to `descriptor.app_state_selector_info`. -/
inductive AppStateUpdate where
  | COMPUTE | PERSIST | COMPUTE_AND_PERSIST
  deriving DecidableEq, Repr

/-- Observable effects of the protocol engine, recorded in program order:
channel commands and sends, descriptor/platform callback invocations,
ack-registry completions, and delegations to the sub-handlers. -/
inductive Effect where
  | command (c : ChannelCommand)
  | appStateSelectorInfo (sel : AppStateSelector) (op : AppStateUpdate) (value : Nat)
  | setResult (msgId : Nat)
  | setError (msgId : Nat) (err : SystemError)
  | sendEmptyAck (msgId : Nat)
  | sendCodedAck (token : Nat)
  | sendDescribe (descFlags : Nat)
  | signal (showSignal : Bool)
  | otaUpgradeStatusSent
  | handleFunctionCall (token : Nat) (msgId : Nat)
  | handleVariableRequest (token : Nat) (msgId : Nat)
  | handleUpdateBegin (token : Nat)
  | handleChunk (token : Nat)
  | handleUpdateDone (token : Nat)
  | handleEvent
  | timesyncResponse (time : Nat) (millis : Nat)
  | pingerMessageReceived
  | ping
  | helloSend (helloFlags : Nat)
  | notifyEstablished
  | ackHandlersClear
  | chunkedTransferReset
  | pingerReset
  | timesyncReset
  deriving DecidableEq, Repr

/-- Modelled from the spec: the sentinel for "no pending reply id"
(`INVALID_MESSAGE_HANDLE`, declared outside this translation unit).
Message ids decoded from the wire are 16-bit. -/
def INVALID_MESSAGE_HANDLE : Nat := 0xFFFF

/-- Modelled from the spec: `AppStateDescriptor` (declared outside this
translation unit) — a record of four optional fields (system-describe
CRC, app-describe CRC, subscriptions CRC, protocol flags) with a
validity bitfield recording which fields are present. -/
structure AppStateDescriptor where
  validFlags : Nat := 0
  systemDescribeCrc : Nat := 0
  appDescribeCrc : Nat := 0
  subscriptionsCrc : Nat := 0
  protocolFlags : Nat := 0
  deriving DecidableEq, Repr

namespace AppStateDescriptor

/-- Mask bit selecting the system-describe CRC field. -/
def SYSTEM_DESCRIBE_CRC : Nat := 0x01
/-- Mask bit selecting the app-describe CRC field. -/
def APP_DESCRIBE_CRC : Nat := 0x02
/-- Mask bit selecting the subscriptions CRC field. -/
def SUBSCRIPTIONS_CRC : Nat := 0x04
/-- Mask bit selecting the protocol-flags field. -/
def PROTOCOL_FLAGS : Nat := 0x08
/-- Mask selecting every field. -/
def ALL : Nat := SYSTEM_DESCRIBE_CRC ||| APP_DESCRIBE_CRC ||| SUBSCRIPTIONS_CRC ||| PROTOCOL_FLAGS

/-- One field of the masked comparison: either the mask does not select
the field, or both sides have it present and numerically equal. -/
def fieldEq (a b : AppStateDescriptor) (mask bit : Nat) (f : AppStateDescriptor → Nat) : Bool :=
  mask &&& bit == 0 ||
    (a.validFlags &&& bit != 0 && b.validFlags &&& bit != 0 && f a == f b)

/-- Modelled from the spec: `AppStateDescriptor::equalsTo(other, mask)` —
true iff every field selected by the mask is present in both descriptors
and equal; a field absent on either side forces inequality for that bit. -/
def equalsTo (a b : AppStateDescriptor) (mask : Nat) : Bool :=
  fieldEq a b mask SYSTEM_DESCRIBE_CRC systemDescribeCrc &&
  fieldEq a b mask APP_DESCRIBE_CRC appDescribeCrc &&
  fieldEq a b mask SUBSCRIPTIONS_CRC subscriptionsCrc &&
  fieldEq a b mask PROTOCOL_FLAGS protocolFlags

end AppStateDescriptor

/-- Modelled from the spec: `ProtocolFlag` bits of the session state
(declared outside this translation unit).  The embedded code only tests
the bits, never their numeric values. -/
def ProtocolFlag.REQUIRE_HELLO_RESPONSE : Nat := 0x01
/-- Modelled from the spec: the `DEVICE_INITIATED_DESCRIBE` protocol flag. -/
def ProtocolFlag.DEVICE_INITIATED_DESCRIBE : Nat := 0x02

/-- Modelled from the spec: the `DescriptionType` flag bits (declared
outside this translation unit): `DESCRIBE_SYSTEM`, `DESCRIBE_APPLICATION`,
`DESCRIBE_METRICS`, with `DESCRIBE_DEFAULT = SYSTEM|APPLICATION`. -/
def DESCRIBE_SYSTEM : Nat := 1
/-- The `DESCRIBE_APPLICATION` flag bit. -/
def DESCRIBE_APPLICATION : Nat := 2
/-- The `DESCRIBE_METRICS` flag bit. -/
def DESCRIBE_METRICS : Nat := 4
/-- `DESCRIBE_DEFAULT = DESCRIBE_SYSTEM | DESCRIBE_APPLICATION`. -/
def DESCRIBE_DEFAULT : Nat := DESCRIBE_SYSTEM ||| DESCRIBE_APPLICATION
/-- `DESCRIBE_MAX`: largest valid describe-flags byte. -/
def DESCRIBE_MAX : Nat := DESCRIBE_SYSTEM ||| DESCRIBE_APPLICATION ||| DESCRIBE_METRICS

/-- Mutable session state of the `Protocol` instance touched by the
embedded methods. -/
structure ProtoState where
  app_describe_msg_id : Nat := INVALID_MESSAGE_HANDLE
  system_describe_msg_id : Nat := INVALID_MESSAGE_HANDLE
  subscriptions_msg_id : Nat := INVALID_MESSAGE_HANDLE
  last_message_millis : Nat := 0
  protocol_flags : Nat := 0
  deriving DecidableEq, Repr

/-- Environment of a call: results of the external collaborators
(channel, descriptor callbacks, sub-handlers) that `protocol.cpp` merely
invokes.  `decodeType` stands for `Messages::decodeType`. -/
structure Env where
  millis : Nat := 0
  decodeType : List Nat → CoAPMessageType := fun _ => .NONE
  hasAppStateSelector : Bool := true
  subscriptionsCrc : Nat := 0
  currentState : AppStateDescriptor := {}
  cachedState : AppStateDescriptor := {}
  assignedMsgId : Nat := 0
  overflowed : Bool := false
  createResult : ProtocolError := NO_ERROR
  sendResult : ProtocolError := NO_ERROR
  commandResult : ProtocolError := NO_ERROR
  functionCallResult : ProtocolError := NO_ERROR
  variableRequestResult : ProtocolError := NO_ERROR
  updateBeginResult : ProtocolError := NO_ERROR
  chunkResult : ProtocolError := NO_ERROR
  updateDoneResult : ProtocolError := NO_ERROR
  eventResult : ProtocolError := NO_ERROR

/-- Result of a `handle_key_change` call: effects in order, the returned
error, and whether the parameter-option read `buf[7 + (buf[0] & 0xF)]`
was performed at an index at or beyond the message length (an
out-of-range read of the C buffer). -/
structure KeyChangeResult where
  effects : List Effect
  err : ProtocolError
  oobRead : Bool
  deriving DecidableEq, Repr

/-- `Protocol::handle_key_change`: on a confirmable message first send an
empty acknowledgement; then, if the message length exceeds 7, read the
byte at `7 + (buf[0] & 0xF)` and issue `DISCARD_SESSION` when it equals 1.
The read is embedded with `List.get?`: an out-of-range read yields `none`
(never equal to 1) and raises `oobRead`. -/
def handle_key_change (env : Env) (msg : List Nat) : KeyChangeResult :=
  let ackEffs : List Effect :=
    if CoAP.type msg = CoAPType.CON then [.sendEmptyAck 0] else []
  let result := if CoAP.type msg = CoAPType.CON then env.sendResult else NO_ERROR
  if 7 < msg.length then
    let option_idx := 7 + (byteAt msg 0 &&& 0xF)
    let oob : Bool := decide (msg.length ≤ option_idx)
    if msg.get? option_idx = some 1 then
      ⟨ackEffs ++ [.command .DISCARD_SESSION], env.commandResult, oob⟩
    else
      ⟨ackEffs, result, oob⟩
  else
    ⟨ackEffs, result, false⟩

/-- `Protocol::notify_message_complete`: translate the CoAP response code
class and complete the pending ack handler — class 2 fires the success
handler, class 4 the error handler with `COAP_4XX`, class 5 with
`COAP_5XX`, any other non-success class with the generic `COAP` error. -/
def notify_message_complete (msg_id responseCode : Nat) : List Effect :=
  let codeClass := responseCode >>> 5
  if CoAPCode.is_success responseCode then
    [.setResult msg_id]
  else
    let error := if codeClass = 4 then SystemError.COAP_4XX
      else if codeClass = 5 then SystemError.COAP_5XX
      else SystemError.COAP
    [.setError msg_id error]

/-- `Protocol::update_subscription_crc`: when the app-state selector
callback is present, persist the subscriptions checksum inside a
`SAVE_SESSION` / `LOAD_SESSION` envelope. -/
def update_subscription_crc (env : Env) : List Effect :=
  if env.hasAppStateSelector then
    [.command .SAVE_SESSION,
     .appStateSelectorInfo .SUBSCRIPTIONS .PERSIST env.subscriptionsCrc,
     .command .LOAD_SESSION]
  else []

/-- `Protocol::update_protocol_flags`: when the app-state selector
callback is present, persist `protocol_flags` inside a `SAVE_SESSION` /
`LOAD_SESSION` envelope. -/
def update_protocol_flags (env : Env) (st : ProtoState) : List Effect :=
  if env.hasAppStateSelector then
    [.command .SAVE_SESSION,
     .appStateSelectorInfo .PROTOCOL_FLAGS .PERSIST st.protocol_flags,
     .command .LOAD_SESSION]
  else []

/-- The effects of the reply-processing section of
`Protocol::handle_received_message` (wire-type ACK or RESET): a RESET's
code becomes `INTERNAL_SERVER_ERROR`, the pending ack handler is
completed, and for each pending describe/subscription id matching the
reply id of an ACK the CRC-persistence envelope is issued. -/
def reply_effects (env : Env) (st : ProtoState) (msg : List Nat) : List Effect :=
  let msg_id := CoAP.message_id msg
  let type := CoAP.type msg
  if type.is_reply then
    let code := if type = CoAPType.RESET then INTERNAL_SERVER_ERROR else CoAP.code msg
    let notif := notify_message_complete msg_id code
    let appEffs : List Effect :=
      if msg_id = st.app_describe_msg_id ∧ type = CoAPType.ACK ∧ env.hasAppStateSelector then
        [.command .SAVE_SESSION,
         .appStateSelectorInfo .DESCRIBE_APP .COMPUTE_AND_PERSIST 0,
         .command .LOAD_SESSION]
      else []
    let sysEffs : List Effect :=
      if msg_id = st.system_describe_msg_id ∧ type = CoAPType.ACK ∧ env.hasAppStateSelector then
        [.command .SAVE_SESSION,
         .appStateSelectorInfo .DESCRIBE_SYSTEM .COMPUTE_AND_PERSIST 0,
         .command .LOAD_SESSION]
      else []
    let subEffs : List Effect :=
      if msg_id = st.subscriptions_msg_id ∧ type = CoAPType.ACK then
        update_subscription_crc env
      else []
    notif ++ appEffs ++ sysEffs ++ subEffs
  else []

/-- The state updates of the reply-processing section: each pending
describe/subscription id equal to the reply's message id is cleared to
`INVALID_MESSAGE_HANDLE`. -/
def reply_state (st : ProtoState) (msg : List Nat) : ProtoState :=
  let msg_id := CoAP.message_id msg
  let type := CoAP.type msg
  if type.is_reply then
    let st :=
      if msg_id = st.app_describe_msg_id then
        { st with app_describe_msg_id := INVALID_MESSAGE_HANDLE } else st
    let st :=
      if msg_id = st.system_describe_msg_id then
        { st with system_describe_msg_id := INVALID_MESSAGE_HANDLE } else st
    let st :=
      if msg_id = st.subscriptions_msg_id then
        { st with subscriptions_msg_id := INVALID_MESSAGE_HANDLE } else st
    st
  else st

/-- The reply-processing section of `Protocol::handle_received_message`:
updated state together with the effects. -/
def reply_section (env : Env) (st : ProtoState) (msg : List Nat) :
    ProtoState × List Effect :=
  (reply_state st msg, reply_effects env st msg)

/-- `Protocol::generate_and_send_description`: build the describe
document, halt on buffer overflow (`SPARK_ASSERT`), otherwise send it
and, on a successful send, record the assigned message id into the
pending app/system describe ids selected by the flags. -/
def generate_and_send_description (env : Env) (st : ProtoState) (desc_flags : Nat) :
    ProtoState × List Effect × ProtocolError :=
  if env.overflowed then
    (st, [], ProtocolError.PANIC)
  else
    let effs : List Effect := [.sendDescribe desc_flags]
    if env.sendResult = NO_ERROR then
      let st := if desc_flags &&& DESCRIBE_APPLICATION ≠ 0 then
          { st with app_describe_msg_id := env.assignedMsgId } else st
      let st := if desc_flags &&& DESCRIBE_SYSTEM ≠ 0 then
          { st with system_describe_msg_id := env.assignedMsgId } else st
      (st, effs, NO_ERROR)
    else
      (st, effs, env.sendResult)

/-- The `force == false` flag filtering of `Protocol::post_description`:
drop `DESCRIBE_SYSTEM` when the current descriptor equals the cached one
under the `SYSTEM_DESCRIBE_CRC` mask, and `DESCRIBE_APPLICATION`
likewise under `APP_DESCRIBE_CRC`. -/
def filter_desc_flags (current cached : AppStateDescriptor) (desc_flags : Nat) : Nat :=
  let f :=
    if desc_flags &&& DESCRIBE_SYSTEM ≠ 0 ∧
        current.equalsTo cached AppStateDescriptor.SYSTEM_DESCRIBE_CRC then
      desc_flags ^^^ DESCRIBE_SYSTEM
    else desc_flags
  if f &&& DESCRIBE_APPLICATION ≠ 0 ∧
      current.equalsTo cached AppStateDescriptor.APP_DESCRIBE_CRC then
    f ^^^ DESCRIBE_APPLICATION
  else f

/-- `Protocol::post_description`: unless forced, filter the describe
flags against the cached app-state descriptor; return `NO_ERROR` without
any message when no flags remain; otherwise create a message, build the
describe-post header with a fresh token, and generate and send the
description. -/
def post_description (env : Env) (st : ProtoState) (desc_flags : Nat) (force : Bool) :
    ProtoState × List Effect × ProtocolError :=
  let flags :=
    if force then desc_flags
    else filter_desc_flags env.currentState env.cachedState desc_flags
  if flags = 0 then
    (st, [], NO_ERROR)
  else if env.createResult ≠ NO_ERROR then
    (st, [], env.createResult)
  else
    generate_and_send_description env st flags

/-- `Protocol::send_description_response`: acknowledge the describe
request with an empty ACK, then send a separate response message
carrying the describe document under the request's token. -/
def send_description_response (env : Env) (st : ProtoState)
    (msg_id desc_flags : Nat) : ProtoState × List Effect × ProtocolError :=
  if env.createResult ≠ NO_ERROR then
    (st, [], env.createResult)
  else
    let ackEffs : List Effect := [.sendEmptyAck msg_id]
    if env.sendResult ≠ NO_ERROR then
      (st, ackEffs, env.sendResult)
    else if env.createResult ≠ NO_ERROR then
      (st, ackEffs, env.createResult)
    else
      let r := generate_and_send_description env st desc_flags
      (r.1, ackEffs ++ r.2.1, r.2.2)

/-- Result of `Protocol::handle_received_message`: the updated state, the
effects in program order, the returned error, and the decoded message
type (the out-parameter). -/
structure Outcome where
  state : ProtoState
  effects : List Effect
  err : ProtocolError
  msgType : CoAPMessageType
  deriving Repr

/-- The normalised token length of lines 68–72 of
`handle_received_message`: a decoded length other than 0 or
`sizeof(token_t) = 4` is logged as unsupported and set to 0. -/
def validated_token_len (raw : Nat) : Nat :=
  if 0 < raw ∧ raw ≠ 4 then 0 else raw

/-- The 32-bit big-endian epoch decode of the TIME arm:
`queue[6] << 24 | queue[7] << 16 | queue[8] << 8 | queue[9]`. -/
def time_epoch (msg : List Nat) : Nat :=
  byteAt msg 6 <<< 24 ||| byteAt msg 7 <<< 16 ||| byteAt msg 8 <<< 8 ||| byteAt msg 9

/-- One arm of the message-type switch of
`Protocol::handle_received_message`: the dispatch applied to the state
left by the reply section, yielding the arm's own effects, the returned
error, and the final state. -/
def dispatch_arm (env : Env) (st : ProtoState) (msg : List Nat)
    (token_len token : Nat) (message_type : CoAPMessageType) : Outcome :=
  let msg_id := CoAP.message_id msg
  match message_type with
  | .DESCRIBE =>
    let descriptor_type :=
      if 8 < msg.length ∧ byteAt msg 8 ≤ DESCRIBE_MAX then byteAt msg 8
      else DESCRIBE_DEFAULT
    let r := send_description_response env st msg_id descriptor_type
    ⟨r.1, r.2.1, r.2.2, message_type⟩
  | .FUNCTION_CALL =>
    if token_len = 0 then
      ⟨st, [], MISSING_REQUEST_TOKEN, message_type⟩
    else
      ⟨st, [.handleFunctionCall token msg_id], env.functionCallResult, message_type⟩
  | .VARIABLE_REQUEST =>
    if token_len = 0 then
      ⟨st, [], MISSING_REQUEST_TOKEN, message_type⟩
    else
      ⟨st, [.handleVariableRequest token msg_id], env.variableRequestResult, message_type⟩
  | .SAVE_BEGIN =>
    ⟨st, [.handleUpdateBegin token], env.updateBeginResult, message_type⟩
  | .UPDATE_BEGIN =>
    ⟨st, [.handleUpdateBegin token], env.updateBeginResult, message_type⟩
  | .CHUNK =>
    ⟨st, [.handleChunk token], env.chunkResult, message_type⟩
  | .UPDATE_DONE =>
    ⟨st, [.handleUpdateDone token], env.updateDoneResult, message_type⟩
  | .EVENT =>
    ⟨st, [.handleEvent], env.eventResult, message_type⟩
  | .KEY_CHANGE =>
    let r := handle_key_change env msg
    ⟨st, r.effects, r.err, message_type⟩
  | .SIGNAL_START =>
    ⟨st, [.signal true, .sendCodedAck token], env.sendResult, message_type⟩
  | .SIGNAL_STOP =>
    ⟨st, [.signal false, .sendCodedAck token], env.sendResult, message_type⟩
  | .HELLO =>
    let ackEffs : List Effect :=
      if CoAP.type msg = CoAPType.CON then [.sendEmptyAck msg_id] else []
    ⟨st, ackEffs ++ [.otaUpgradeStatusSent], NO_ERROR, message_type⟩
  | .TIME =>
    ⟨st, [.timesyncResponse (time_epoch msg) env.millis], NO_ERROR, message_type⟩
  | .PING =>
    ⟨st, [.sendEmptyAck msg_id], env.sendResult, message_type⟩
  | .ERROR =>
    ⟨st, [], NO_ERROR, message_type⟩
  | .NONE =>
    ⟨st, [], NO_ERROR, message_type⟩

/-- The body of `Protocol::handle_received_message` after token
decoding and validation: record activity, run the reply section, then
dispatch on the decoded message type using the validated token length
and token value; the effects are the activity notification, the reply
section's effects, then the dispatch arm's effects, in program order. -/
def dispatch_received (env : Env) (st : ProtoState) (msg : List Nat)
    (token_len token : Nat) : Outcome :=
  let st := { st with last_message_millis := env.millis }
  let message_type := env.decodeType msg
  let arm := dispatch_arm env (reply_state st msg) msg token_len token message_type
  ⟨arm.state,
   .pingerMessageReceived :: (reply_effects env st msg ++ arm.effects),
   arm.err, arm.msgType⟩

/-- `Protocol::handle_received_message`: decode the token, validate its
length (a length other than 0 or 4 is logged as unsupported and treated
as 0, i.e. the token is absent), and dispatch. -/
def handle_received_message (env : Env) (st : ProtoState) (msg : List Nat) : Outcome :=
  dispatch_received env st msg
    (validated_token_len (CoAP.tokenLenRaw msg)) (CoAP.tokenValue msg)

/-- `HelloFlag` bits declared at the top of `protocol.cpp`. -/
def HELLO_FLAG_OTA_UPGRADE_SUCCESSFUL : Nat := 0x01
/-- The diagnostics-support hello flag. -/
def HELLO_FLAG_DIAGNOSTICS_SUPPORT : Nat := 0x02
/-- The immediate-updates-support hello flag. -/
def HELLO_FLAG_IMMEDIATE_UPDATES_SUPPORT : Nat := 0x04
/-- The device-initiated-describe hello flag. -/
def HELLO_FLAG_DEVICE_INITIATED_DESCRIBE : Nat := 0x20

/-- Environment of a `begin()` call: results of `channel.establish()`,
the keepalive `ping(true)`, the HELLO send (`hello()`), and the HELLO
response wait, plus the shared collaborator environment. -/
structure BeginEnv where
  env : Env := {}
  establishResult : ProtocolError := NO_ERROR
  pingResult : ProtocolError := NO_ERROR
  helloResult : ProtocolError := NO_ERROR
  helloResponseResult : ProtocolError := NO_ERROR
  wasOtaUpgradeSuccessful : Bool := false

/-- The HELLO flags byte composed by `Protocol::hello`. -/
def hello_flags (benv : BeginEnv) (st : ProtoState) : Nat :=
  let f := HELLO_FLAG_DIAGNOSTICS_SUPPORT ||| HELLO_FLAG_IMMEDIATE_UPDATES_SUPPORT
  let f := if benv.wasOtaUpgradeSuccessful then f ||| HELLO_FLAG_OTA_UPGRADE_SUCCESSFUL else f
  if st.protocol_flags &&& ProtocolFlag.DEVICE_INITIATED_DESCRIBE ≠ 0 then
    f ||| HELLO_FLAG_DEVICE_INITIATED_DESCRIBE
  else f

/-- The tail of `Protocol::begin` from the "Sending HELLO message" point:
send HELLO, optionally await the HELLO response, notify the channel,
persist the protocol flags, and post a forced system describe when
`DEVICE_INITIATED_DESCRIBE` is configured. -/
def begin_hello_path (benv : BeginEnv) (st : ProtoState) (effs0 : List Effect) :
    ProtoState × List Effect × ProtocolError :=
  let st := { st with last_message_millis := benv.env.millis }
  let effs := effs0 ++ [.helloSend (hello_flags benv st)]
  if benv.helloResult ≠ NO_ERROR then
    (st, effs, benv.helloResult)
  else
    let respErr :=
      if st.protocol_flags &&& ProtocolFlag.REQUIRE_HELLO_RESPONSE ≠ 0 then
        benv.helloResponseResult
      else NO_ERROR
    if respErr ≠ NO_ERROR then
      (st, effs, respErr)
    else
      let effs := effs ++ [.notifyEstablished] ++ update_protocol_flags benv.env st
      if st.protocol_flags &&& ProtocolFlag.DEVICE_INITIATED_DESCRIBE ≠ 0 then
        let r := post_description benv.env st DESCRIBE_SYSTEM true
        (r.1, effs ++ r.2.1, r.2.2)
      else
        (st, effs, NO_ERROR)

/-- `Protocol::begin`: reset the sub-components and pending ids,
establish the channel, and either fail, take the session-resumption fast
path (`MOVE_SESSION`, cached-state comparison, keepalive ping), or fall
through to the HELLO handshake. -/
def begin (benv : BeginEnv) (st : ProtoState) : ProtoState × List Effect × ProtocolError :=
  let resets : List Effect :=
    [.chunkedTransferReset, .pingerReset, .timesyncReset, .ackHandlersClear]
  let st := { st with app_describe_msg_id := INVALID_MESSAGE_HANDLE,
                      system_describe_msg_id := INVALID_MESSAGE_HANDLE,
                      subscriptions_msg_id := INVALID_MESSAGE_HANDLE }
  let error := benv.establishResult
  let session_resumed := error = SESSION_RESUMED
  if error ≠ NO_ERROR ∧ ¬session_resumed then
    (st, resets, error)
  else if session_resumed then
    let effs := resets ++ [.command .MOVE_SESSION]
    let stateFlags :=
      if st.protocol_flags &&& ProtocolFlag.DEVICE_INITIATED_DESCRIBE ≠ 0 then
        AppStateDescriptor.SYSTEM_DESCRIBE_CRC ||| AppStateDescriptor.PROTOCOL_FLAGS
      else AppStateDescriptor.ALL
    if benv.env.cachedState.equalsTo benv.env.currentState stateFlags then
      let error := if benv.pingResult ≠ NO_ERROR then benv.pingResult else error
      (st, effs ++ [.ping], error)
    else
      begin_hello_path benv st effs
  else
    begin_hello_path benv st resets

/-- Whether an effect is a delegation to the function or variable
handler. -/
def Effect.isHandlerDelegation : Effect → Bool
  | .handleFunctionCall _ _ => true
  | .handleVariableRequest _ _ => true
  | _ => false

/-- Whether an effect is a network send of a describe message. -/
def Effect.isDescribeSend : Effect → Bool
  | .sendDescribe _ => true
  | _ => false

/-- The reply-code translation written in the spec's words, for
comparison with `notify_message_complete`: class 2 fires the success
handler; class 4 the error handler with `COAP_4XX`; class 5 with
`COAP_5XX`; any other class the generic `COAP` error. -/
def reply_completion_spec (msg_id code : Nat) : Effect :=
  if code >>> 5 = 2 then .setResult msg_id
  else .setError msg_id
    (if code >>> 5 = 4 then SystemError.COAP_4XX
     else if code >>> 5 = 5 then SystemError.COAP_5XX
     else SystemError.COAP)

/-- The code value `notify_message_complete` is called with by the reply
section: a RESET reply is first translated to the internal-server-error
code. -/
def translated_reply_code (msg : List Nat) : Nat :=
  if CoAP.type msg = CoAPType.RESET then INTERNAL_SERVER_ERROR else CoAP.code msg

/-- Classification of the effects the reply section can produce. -/
def Effect.isReplyKind : Effect → Bool
  | .setResult _ => true
  | .setError _ _ => true
  | .command _ => true
  | .appStateSelectorInfo _ _ _ => true
  | _ => false

lemma get?_eq_some_one (msg : List Nat) (i : Nat) :
    msg.get? i = some 1 ↔ i < msg.length ∧ byteAt msg i = 1 := by
  unfold byteAt
  rw [List.get?_eq_getElem?, List.getD_eq_getElem?_getD]
  constructor
  · intro h
    have hlt : i < msg.length := by
      by_contra hge
      rw [List.getElem?_eq_none (by omega)] at h
      exact Option.noConfusion h
    exact ⟨hlt, by rw [h]; rfl⟩
  · rintro ⟨hlt, hv⟩
    rw [List.getElem?_eq_getElem hlt] at hv ⊢
    simpa using hv

/-- C10: the only bounds check before the parameter-option read in
`handle_key_change` is `message.length() > 7`, so any key-change message
with `7 < length ≤ 7 + (buf[0] & 0xF)` makes the code read
`buf[7 + (buf[0] & 0xF)]` at or beyond the message length: in the total
embedding, where indexing returns an `Option`, this read is out of
range, which the model records in `oobRead`. -/
theorem claim_C10 (env : Env) (msg : List Nat)
    (h7 : 7 < msg.length)
    (hle : msg.length ≤ 7 + (byteAt msg 0 &&& 0xF)) :
    (handle_key_change env msg).oobRead = true := by
  unfold handle_key_change
  simp only [if_pos h7]
  split <;> simp [hle]

/-- Witness for C10: the length-8 confirmable key-change message with a
token-length nibble of 1 reads index 8 of an 8-byte message. -/
theorem claim_C10_witness :
    7 < ([0x41, 1, 0, 1, 0xAA, 0, 0, 0] : List Nat).length ∧
    ([0x41, 1, 0, 1, 0xAA, 0, 0, 0] : List Nat).length ≤
      7 + (byteAt [0x41, 1, 0, 1, 0xAA, 0, 0, 0] 0 &&& 0xF) ∧
    (handle_key_change {} [0x41, 1, 0, 1, 0xAA, 0, 0, 0]).oobRead = true :=
  ⟨by decide, by decide, claim_C10 {} _ (by decide) (by decide)⟩

/-- C4: on a confirmable key-change message the first effect is an empty
acknowledgement; a `DISCARD_SESSION` command is issued exactly once iff
the message is longer than the parameter-option offset
`7 + (buf[0] & 0xF)` and the byte there equals 1, and otherwise not at
all (an out-of-range parameter-option read yields no byte and hence no
command). -/
theorem claim_C4 (env : Env) (msg : List Nat)
    (hcon : CoAP.type msg = CoAPType.CON) :
    (handle_key_change env msg).effects.head? = some (.sendEmptyAck 0) ∧
    (handle_key_change env msg).effects.count (Effect.command .DISCARD_SESSION) =
      (if 7 + (byteAt msg 0 &&& 0xF) < msg.length ∧
          byteAt msg (7 + (byteAt msg 0 &&& 0xF)) = 1
       then 1 else 0) := by
  unfold handle_key_change
  rw [hcon]
  simp only [if_pos rfl]
  by_cases h7 : 7 < msg.length
  · simp only [if_pos h7]
    by_cases hget : msg.get? (7 + (byteAt msg 0 &&& 0xF)) = some 1
    · rw [if_pos hget]
      rw [get?_eq_some_one] at hget
      refine ⟨rfl, ?_⟩
      rw [if_pos hget]
      simp [List.count_cons, List.count_append]
    · rw [if_neg hget]
      rw [get?_eq_some_one] at hget
      refine ⟨rfl, ?_⟩
      rw [if_neg hget]
      simp [List.count_cons]
  · simp only [if_neg h7]
    refine ⟨rfl, ?_⟩
    have hno : ¬(7 + (byteAt msg 0 &&& 0xF) < msg.length ∧
        byteAt msg (7 + (byteAt msg 0 &&& 0xF)) = 1) := by
      rintro ⟨hc, -⟩
      omega
    rw [if_neg hno]
    simp [List.count_cons]

/-- Witness for C4: a confirmable key-change message with the
parameter-option byte 1 at offset 7 gets an empty ACK first and exactly
one `DISCARD_SESSION` command. -/
theorem claim_C4_witness :
    CoAP.type [0x40, 1, 0, 1, 0, 0, 0, 1] = CoAPType.CON ∧
    (handle_key_change {} [0x40, 1, 0, 1, 0, 0, 0, 1]).effects.head? =
      some (.sendEmptyAck 0) ∧
    (handle_key_change {} [0x40, 1, 0, 1, 0, 0, 0, 1]).effects.count
      (Effect.command .DISCARD_SESSION) =
      (if 7 + (byteAt [0x40, 1, 0, 1, 0, 0, 0, 1] 0 &&& 0xF) <
            ([0x40, 1, 0, 1, 0, 0, 0, 1] : List Nat).length ∧
          byteAt [0x40, 1, 0, 1, 0, 0, 0, 1]
            (7 + (byteAt [0x40, 1, 0, 1, 0, 0, 0, 1] 0 &&& 0xF)) = 1
       then 1 else 0) :=
  ⟨by decide, (claim_C4 {} _ (by decide)).1, (claim_C4 {} _ (by decide)).2⟩

lemma mem_notify {i c : Nat} {e : Effect}
    (h : e ∈ notify_message_complete i c) : e.isReplyKind = true := by
  unfold notify_message_complete at h
  split at h <;> simp at h <;> subst h <;> rfl

lemma mem_update_subscription_crc {env : Env} {e : Effect}
    (h : e ∈ update_subscription_crc env) : e.isReplyKind = true := by
  unfold update_subscription_crc at h
  split at h <;> simp at h
  rcases h with h | h | h <;> subst h <;> rfl

lemma mem_reply_effects {env : Env} {st : ProtoState} {msg : List Nat} {e : Effect}
    (h : e ∈ reply_effects env st msg) : e.isReplyKind = true := by
  simp only [reply_effects] at h
  split at h
  · simp only [List.mem_append] at h
    rcases h with ((h | h) | h) | h
    · exact mem_notify h
    · split at h <;> simp at h
      rcases h with h | h | h <;> subst h <;> rfl
    · split at h <;> simp at h
      rcases h with h | h | h <;> subst h <;> rfl
    · split at h
      · exact mem_update_subscription_crc h
      · simp at h
  · simp at h

/-- C5: a FUNCTION_CALL or VARIABLE_REQUEST whose decoded token length is
0 (which includes any length other than 0 or 4, treated as 0 by
validation) returns `MISSING_REQUEST_TOKEN` and delegates to neither the
function handler nor the variable handler. -/
theorem claim_C5 (env : Env) (st : ProtoState) (msg : List Nat)
    (ht : env.decodeType msg = CoAPMessageType.FUNCTION_CALL ∨
          env.decodeType msg = CoAPMessageType.VARIABLE_REQUEST)
    (h0 : validated_token_len (CoAP.tokenLenRaw msg) = 0) :
    (handle_received_message env st msg).err = MISSING_REQUEST_TOKEN ∧
    (handle_received_message env st msg).effects.countP
      (fun e => e.isHandlerDelegation) = 0 := by
  unfold handle_received_message dispatch_received dispatch_arm
  rcases ht with h | h <;>
  · simp only [h, h0, ite_true]
    refine ⟨trivial, ?_⟩
    rw [List.countP_eq_zero]
    intro e he
    have he2 : e = Effect.pingerMessageReceived ∨
        e ∈ reply_effects env
          { st with last_message_millis := env.millis } msg := by
      simpa using he
    rcases he2 with he2 | he2
    · subst he2
      decide
    · have hk := mem_reply_effects he2
      cases e <;> simp_all [Effect.isReplyKind, Effect.isHandlerDelegation]

/-- Witness for C5: a token-less FUNCTION_CALL returns
`MISSING_REQUEST_TOKEN` with no handler delegation. -/
theorem claim_C5_witness :
    (({ decodeType := fun _ => CoAPMessageType.FUNCTION_CALL } : Env).decodeType
        [0x40, 2, 0, 1] = CoAPMessageType.FUNCTION_CALL ∨
      ({ decodeType := fun _ => CoAPMessageType.FUNCTION_CALL } : Env).decodeType
        [0x40, 2, 0, 1] = CoAPMessageType.VARIABLE_REQUEST) ∧
    validated_token_len (CoAP.tokenLenRaw [0x40, 2, 0, 1]) = 0 ∧
    ((handle_received_message { decodeType := fun _ => CoAPMessageType.FUNCTION_CALL }
        {} [0x40, 2, 0, 1]).err = MISSING_REQUEST_TOKEN ∧
     (handle_received_message { decodeType := fun _ => CoAPMessageType.FUNCTION_CALL }
        {} [0x40, 2, 0, 1]).effects.countP (fun e => e.isHandlerDelegation) = 0) :=
  ⟨Or.inl rfl, by decide,
   claim_C5 { decodeType := fun _ => CoAPMessageType.FUNCTION_CALL } {} _
     (Or.inl rfl) (by decide)⟩

/-- C8: a message with a decoded token length that is neither 0 nor 4
has its token length set to 0 (the token is treated as absent) and is
still dispatched — the outcome equals the dispatch with an absent token,
not an early rejection. -/
theorem claim_C8 (env : Env) (st : ProtoState) (msg : List Nat)
    (h1 : CoAP.tokenLenRaw msg ≠ 0) (h2 : CoAP.tokenLenRaw msg ≠ 4) :
    validated_token_len (CoAP.tokenLenRaw msg) = 0 ∧
    handle_received_message env st msg = dispatch_received env st msg 0 0 := by
  have hv : validated_token_len (CoAP.tokenLenRaw msg) = 0 := by
    unfold validated_token_len
    rw [if_pos ⟨Nat.pos_of_ne_zero h1, h2⟩]
  have htv : CoAP.tokenValue msg = 0 := by
    unfold CoAP.tokenValue
    rw [if_neg h2]
  exact ⟨hv, by unfold handle_received_message; rw [hv, htv]⟩

/-- Witness for C8: a message with token-length nibble 3 is handled as
the token-less dispatch. -/
theorem claim_C8_witness :
    CoAP.tokenLenRaw [0x53, 0, 0, 1] ≠ 0 ∧
    CoAP.tokenLenRaw [0x53, 0, 0, 1] ≠ 4 ∧
    (validated_token_len (CoAP.tokenLenRaw [0x53, 0, 0, 1]) = 0 ∧
     handle_received_message {} {} [0x53, 0, 0, 1] =
       dispatch_received {} {} [0x53, 0, 0, 1] 0 0) :=
  ⟨by decide, by decide, claim_C8 {} {} _ (by decide) (by decide)⟩

lemma lor_shiftLeft_add (x y k : Nat) (hy : y < 2 ^ k) :
    x <<< k ||| y = x * 2 ^ k + y := by
  rw [Nat.shiftLeft_eq, Nat.mul_comm x (2 ^ k)]
  exact (Nat.mul_add_lt_is_or hy x).symm

lemma time_epoch_eq (msg : List Nat)
    (hb7 : byteAt msg 7 < 256) (hb8 : byteAt msg 8 < 256) (hb9 : byteAt msg 9 < 256) :
    time_epoch msg = byteAt msg 6 * 2 ^ 24 + byteAt msg 7 * 2 ^ 16 +
      byteAt msg 8 * 2 ^ 8 + byteAt msg 9 := by
  unfold time_epoch
  rw [Nat.lor_assoc, Nat.lor_assoc]
  rw [lor_shiftLeft_add (byteAt msg 8) (byteAt msg 9) 8 (by omega)]
  rw [lor_shiftLeft_add (byteAt msg 7) _ 16 (by omega)]
  rw [lor_shiftLeft_add (byteAt msg 6) _ 24 (by omega)]
  ring

/-- C9: a TIME message's final effect hands the time-sync component the
epoch decoded as the 32-bit big-endian integer of message bytes 6..9,
together with the current millis value (the embedding's
`timesyncResponse` effect stands for `timesync_.handle_time_response`
with the platform set-time callback). -/
theorem claim_C9 (env : Env) (st : ProtoState) (msg : List Nat)
    (ht : env.decodeType msg = CoAPMessageType.TIME)
    (hb7 : byteAt msg 7 < 256) (hb8 : byteAt msg 8 < 256) (hb9 : byteAt msg 9 < 256) :
    (handle_received_message env st msg).effects.getLast? =
      some (.timesyncResponse
        (byteAt msg 6 * 2 ^ 24 + byteAt msg 7 * 2 ^ 16 +
          byteAt msg 8 * 2 ^ 8 + byteAt msg 9)
        env.millis) := by
  unfold handle_received_message dispatch_received dispatch_arm
  simp only [ht]
  rw [← time_epoch_eq msg hb7 hb8 hb9]
  rw [← List.cons_append, List.getLast?_concat]

/-- Witness for C9: epoch bytes `5E 00 00 00` at offset 6 reach the
time-sync component as `0x5E000000`. -/
theorem claim_C9_witness :
    ({ decodeType := fun _ => CoAPMessageType.TIME } : Env).decodeType
      [0x50, 0, 0, 1, 0, 0, 0x5E, 0, 0, 0] = CoAPMessageType.TIME ∧
    byteAt [0x50, 0, 0, 1, 0, 0, 0x5E, 0, 0, 0] 7 < 256 ∧
    byteAt [0x50, 0, 0, 1, 0, 0, 0x5E, 0, 0, 0] 8 < 256 ∧
    byteAt [0x50, 0, 0, 1, 0, 0, 0x5E, 0, 0, 0] 9 < 256 ∧
    (handle_received_message { decodeType := fun _ => CoAPMessageType.TIME } {}
      [0x50, 0, 0, 1, 0, 0, 0x5E, 0, 0, 0]).effects.getLast? =
      some (.timesyncResponse 0x5E000000 0) := by
  refine ⟨rfl, by decide, by decide, by decide, ?_⟩
  have h := claim_C9 { decodeType := fun _ => CoAPMessageType.TIME } {}
    [0x50, 0, 0, 1, 0, 0, 0x5E, 0, 0, 0] rfl (by decide) (by decide) (by decide)
  simpa using h

lemma notify_message_complete_eq (i c : Nat) :
    notify_message_complete i c = [reply_completion_spec i c] := by
  unfold notify_message_complete reply_completion_spec
  by_cases h : c >>> 5 = 2 <;> simp [CoAPCode.is_success, h]

lemma singleton_append_shape (x : Effect) (a b c : List Effect) :
    ∃ r, (([x] ++ a) ++ b) ++ c = x :: r :=
  ⟨(a ++ b) ++ c, by simp⟩

lemma reply_effects_cons (env : Env) (msg : List Nat) (st : ProtoState)
    (hrep : (CoAPType.is_reply (CoAP.type msg)) = true) :
    ∃ rest, reply_effects env st msg =
      reply_completion_spec (CoAP.message_id msg) (translated_reply_code msg) :: rest := by
  simp only [reply_effects]
  rw [if_pos hrep, notify_message_complete_eq]
  unfold translated_reply_code
  exact singleton_append_shape _ _ _ _

/-- C6: for every reply (ACK or RESET) the pending ack handler is
completed, right after the activity notification, with the translated
code — a RESET becomes the internal-server-error code — and the
completion follows the class translation: class 2 fires the success
handler, class 4 the error handler with `COAP_4XX`, class 5 with
`COAP_5XX`, any other non-success class the generic `COAP` error
(`reply_completion_spec` states this translation in the spec's words). -/
theorem claim_C6 (env : Env) (st : ProtoState) (msg : List Nat)
    (hrep : (CoAPType.is_reply (CoAP.type msg)) = true) :
    (∀ i c, notify_message_complete i c = [reply_completion_spec i c]) ∧
    (handle_received_message env st msg).effects.get? 1 =
      some (reply_completion_spec (CoAP.message_id msg) (translated_reply_code msg)) := by
  refine ⟨notify_message_complete_eq, ?_⟩
  obtain ⟨rest, hre⟩ :=
    reply_effects_cons env msg { st with last_message_millis := env.millis } hrep
  unfold handle_received_message dispatch_received
  simp only [hre, List.cons_append, List.get?_cons_succ, List.get?_cons_zero]

/-- Witness for C6: a RESET reply with id `0x1234` completes the handler
with the internal-server-error translation. -/
theorem claim_C6_witness :
    (CoAPType.is_reply (CoAP.type [0x70, 0, 0x12, 0x34]) = true) ∧
    ((∀ i c, notify_message_complete i c = [reply_completion_spec i c]) ∧
     (handle_received_message {} {} [0x70, 0, 0x12, 0x34]).effects.get? 1 =
       some (reply_completion_spec (CoAP.message_id [0x70, 0, 0x12, 0x34])
         (translated_reply_code [0x70, 0, 0x12, 0x34]))) :=
  ⟨by decide, claim_C6 {} {} _ (by decide)⟩

lemma dispatch_arm_state (env : Env) (s : ProtoState) (msg : List Nat)
    (tl tk : Nat) (mt : CoAPMessageType) (hnd : mt ≠ CoAPMessageType.DESCRIBE) :
    (dispatch_arm env s msg tl tk mt).state = s := by
  cases mt <;> simp only [dispatch_arm] <;>
    first
      | (exact absurd rfl hnd)
      | rfl
      | (split <;> rfl)

lemma reply_state_system_cleared (st : ProtoState) (msg : List Nat)
    (hrep : (CoAPType.is_reply (CoAP.type msg)) = true)
    (hid : CoAP.message_id msg = st.system_describe_msg_id) :
    (reply_state st msg).system_describe_msg_id = INVALID_MESSAGE_HANDLE := by
  unfold reply_state
  rw [if_pos hrep]
  split_ifs <;> simp_all [apply_ite ProtoState.system_describe_msg_id]

lemma infix_middle (a b c : List Effect) : b <:+: ((a ++ b) ++ c) :=
  ⟨a, c, by simp⟩

lemma infix_cons_append {l m : List Effect} (x : Effect) (r : List Effect)
    (h : l <:+: m) : l <:+: x :: (m ++ r) := by
  obtain ⟨s, t, hst⟩ := h
  exact ⟨x :: s, t ++ r, by simp [← hst]⟩

/-- C2: an ACK whose message id matches the pending
`system_describe_msg_id` clears that id to `INVALID_MESSAGE_HANDLE` and
issues, contiguously and in order, `SAVE_SESSION`, the descriptor
callback `COMPUTE_AND_PERSIST(DESCRIBE_SYSTEM)`, then `LOAD_SESSION`
(the persistence call is bracketed by the SAVE/LOAD envelope).  The
descriptor callback must be registered; a reply never decodes to the
DESCRIBE request type, which the oracle hypothesis `hnd` records. -/
theorem claim_C2 (env : Env) (st : ProtoState) (msg : List Nat)
    (hack : CoAP.type msg = CoAPType.ACK)
    (hid : CoAP.message_id msg = st.system_describe_msg_id)
    (hsel : env.hasAppStateSelector = true)
    (hnd : env.decodeType msg ≠ CoAPMessageType.DESCRIBE) :
    (handle_received_message env st msg).state.system_describe_msg_id =
      INVALID_MESSAGE_HANDLE ∧
    [Effect.command .SAVE_SESSION,
     Effect.appStateSelectorInfo .DESCRIBE_SYSTEM .COMPUTE_AND_PERSIST 0,
     Effect.command .LOAD_SESSION] <:+: (handle_received_message env st msg).effects := by
  have hrep : (CoAPType.is_reply (CoAP.type msg)) = true := by rw [hack]; rfl
  unfold handle_received_message dispatch_received
  constructor
  · rw [dispatch_arm_state env _ msg _ _ _ hnd]
    exact reply_state_system_cleared _ msg hrep hid
  · have hinf : [Effect.command .SAVE_SESSION,
        Effect.appStateSelectorInfo .DESCRIBE_SYSTEM .COMPUTE_AND_PERSIST 0,
        Effect.command .LOAD_SESSION] <:+:
        reply_effects env { st with last_message_millis := env.millis } msg := by
      unfold reply_effects
      rw [if_pos hrep]
      rw [if_pos (show CoAP.message_id msg =
          ({ st with last_message_millis := env.millis } : ProtoState).system_describe_msg_id ∧
          CoAP.type msg = CoAPType.ACK ∧ env.hasAppStateSelector = true from ⟨hid, hack, hsel⟩)]
      exact infix_middle _ _ _
    exact infix_cons_append _ _ hinf

/-- Witness for C2: an ACK with id `0x1234` matching the pending system
describe id clears it and issues the bracketed persistence envelope. -/
theorem claim_C2_witness :
    CoAP.type [0x60, 0x40, 0x12, 0x34] = CoAPType.ACK ∧
    CoAP.message_id [0x60, 0x40, 0x12, 0x34] =
      ({ system_describe_msg_id := 0x1234 } : ProtoState).system_describe_msg_id ∧
    ({} : Env).hasAppStateSelector = true ∧
    ({} : Env).decodeType [0x60, 0x40, 0x12, 0x34] ≠ CoAPMessageType.DESCRIBE ∧
    ((handle_received_message {} { system_describe_msg_id := 0x1234 }
        [0x60, 0x40, 0x12, 0x34]).state.system_describe_msg_id =
          INVALID_MESSAGE_HANDLE ∧
     [Effect.command .SAVE_SESSION,
      Effect.appStateSelectorInfo .DESCRIBE_SYSTEM .COMPUTE_AND_PERSIST 0,
      Effect.command .LOAD_SESSION] <:+:
        (handle_received_message {} { system_describe_msg_id := 0x1234 }
          [0x60, 0x40, 0x12, 0x34]).effects) :=
  ⟨by decide, by decide, rfl, by decide,
   claim_C2 {} { system_describe_msg_id := 0x1234 } [0x60, 0x40, 0x12, 0x34]
     (by decide) (by decide) rfl (by decide)⟩

lemma and_bit_one_eq_one {d : Nat} (h : d &&& 1 ≠ 0) : d &&& 1 = 1 := by
  have hm : d &&& 1 = d % 2 := Nat.and_one_is_mod d
  omega

lemma xor_one_and_one {d : Nat} (h : d &&& 1 ≠ 0) : (d ^^^ 1) &&& 1 = 0 := by
  rw [Nat.and_xor_distrib_right, and_bit_one_eq_one h]
  decide

lemma and_bit_two_eq_two {d : Nat} (h : d &&& 2 ≠ 0) : d &&& 2 = 2 := by
  have h2 : d &&& 2 = (d.testBit 1).toNat * 2 := by
    simpa using Nat.and_two_pow d 1
  rcases Bool.eq_false_or_eq_true (d.testBit 1) with hb | hb <;> simp [hb] at h2 <;> omega

lemma xor_two_and_two {d : Nat} (h : d &&& 2 ≠ 0) : (d ^^^ 2) &&& 2 = 0 := by
  rw [Nat.and_xor_distrib_right, and_bit_two_eq_two h]
  decide

lemma xor_two_and_one (d : Nat) : (d ^^^ 2) &&& 1 = d &&& 1 := by
  rw [Nat.and_xor_distrib_right]
  simp

/-- C7: in a non-forced `post_description`, `DESCRIBE_SYSTEM` is removed
from the flags whenever the current descriptor equals the cached one
under the `SYSTEM_DESCRIBE_CRC` mask, `DESCRIBE_APPLICATION` is removed
likewise under `APP_DESCRIBE_CRC`, and when no flags remain the call
returns `NO_ERROR` without creating or sending any message. -/
theorem claim_C7 (env : Env) (st : ProtoState) (desc_flags : Nat) :
    (env.currentState.equalsTo env.cachedState AppStateDescriptor.SYSTEM_DESCRIBE_CRC = true →
      filter_desc_flags env.currentState env.cachedState desc_flags &&& DESCRIBE_SYSTEM = 0) ∧
    (env.currentState.equalsTo env.cachedState AppStateDescriptor.APP_DESCRIBE_CRC = true →
      filter_desc_flags env.currentState env.cachedState desc_flags &&& DESCRIBE_APPLICATION = 0) ∧
    (filter_desc_flags env.currentState env.cachedState desc_flags = 0 →
      post_description env st desc_flags false = (st, [], NO_ERROR)) := by
  refine ⟨?_, ?_, ?_⟩
  · intro hs
    unfold filter_desc_flags
    simp only [DESCRIBE_SYSTEM, DESCRIBE_APPLICATION]
    split
    case isTrue h1 =>
      split
      · rw [xor_two_and_one]
        exact xor_one_and_one h1.1
      · exact xor_one_and_one h1.1
    case isFalse h1 =>
      split
      · rw [xor_two_and_one]
        by_contra hb
        exact h1 ⟨hb, hs⟩
      · by_contra hb
        exact h1 ⟨hb, hs⟩
  · intro ha
    unfold filter_desc_flags
    simp only [DESCRIBE_SYSTEM, DESCRIBE_APPLICATION]
    split <;>
    · split
      case isTrue h2 => exact xor_two_and_two h2.1
      case isFalse h2 =>
        by_contra hb
        exact h2 ⟨hb, ha⟩
  · intro h0
    unfold post_description
    simp only [Bool.false_eq_true, if_false]
    rw [if_pos h0]

/-- Witness for C7: with identical current and cached descriptors (all
fields present) a non-forced default describe drops all flags and
returns `NO_ERROR` with no effects. -/
theorem claim_C7_witness :
    ({ validFlags := 0xF } : AppStateDescriptor).equalsTo { validFlags := 0xF }
      AppStateDescriptor.SYSTEM_DESCRIBE_CRC = true ∧
    filter_desc_flags { validFlags := 0xF } { validFlags := 0xF } DESCRIBE_DEFAULT = 0 ∧
    post_description
      { currentState := { validFlags := 0xF }, cachedState := { validFlags := 0xF } }
      {} DESCRIBE_DEFAULT false = ({}, [], NO_ERROR) :=
  ⟨by decide, by decide,
   (claim_C7
      { currentState := { validFlags := 0xF }, cachedState := { validFlags := 0xF } }
      {} DESCRIBE_DEFAULT).2.2 (by decide)⟩

lemma filter_desc_flags_eq_zero (cur cach : AppStateDescriptor) (desc_flags : Nat)
    (hle : desc_flags ≤ 3)
    (hs : cur.equalsTo cach AppStateDescriptor.SYSTEM_DESCRIBE_CRC = true)
    (ha : cur.equalsTo cach AppStateDescriptor.APP_DESCRIBE_CRC = true) :
    filter_desc_flags cur cach desc_flags = 0 := by
  interval_cases desc_flags <;>
    simp [filter_desc_flags, hs, ha, DESCRIBE_SYSTEM, DESCRIBE_APPLICATION]

/-- C3: two successive non-forced `post_description` calls for
system/application describe flags issue exactly one network send when
the cached CRCs match the current ones at the time of the second call:
the first call (whose filtering leaves flags, with a working channel and
no overflow) sends exactly one describe message, and the second call
drops all flags and returns `NO_ERROR` with no effects at all. -/
theorem claim_C3 (env1 env2 : Env) (st1 st2 : ProtoState) (desc_flags : Nat)
    (hnz : filter_desc_flags env1.currentState env1.cachedState desc_flags ≠ 0)
    (hcreate : env1.createResult = NO_ERROR)
    (hovf : env1.overflowed = false)
    (hle : desc_flags ≤ 3)
    (hs2 : env2.currentState.equalsTo env2.cachedState
      AppStateDescriptor.SYSTEM_DESCRIBE_CRC = true)
    (ha2 : env2.currentState.equalsTo env2.cachedState
      AppStateDescriptor.APP_DESCRIBE_CRC = true) :
    (post_description env1 st1 desc_flags false).2.1.countP
      (fun e => e.isDescribeSend) = 1 ∧
    (post_description env2 st2 desc_flags false).2.1 = [] ∧
    (post_description env2 st2 desc_flags false).2.2 = NO_ERROR := by
  have h0 := filter_desc_flags_eq_zero env2.currentState env2.cachedState
    desc_flags hle hs2 ha2
  refine ⟨?_, ?_, ?_⟩
  · unfold post_description
    simp only [Bool.false_eq_true, if_false]
    rw [if_neg hnz, if_neg (by simp [hcreate])]
    unfold generate_and_send_description
    rw [if_neg (by simp [hovf])]
    split <;> simp [Effect.isDescribeSend]
  · unfold post_description
    simp only [Bool.false_eq_true, if_false]
    rw [if_pos h0]
  · unfold post_description
    simp only [Bool.false_eq_true, if_false]
    rw [if_pos h0]

/-- Witness for C3: a first call with an empty cache sends one describe;
after the cache matches, the second call is a silent no-op. -/
theorem claim_C3_witness :
    filter_desc_flags ({ cachedState := { validFlags := 0xF } } : Env).currentState
      ({ cachedState := { validFlags := 0xF } } : Env).cachedState DESCRIBE_DEFAULT ≠ 0 ∧
    ((post_description { cachedState := { validFlags := 0xF } } {}
        DESCRIBE_DEFAULT false).2.1.countP (fun e => e.isDescribeSend) = 1 ∧
     (post_description
        { currentState := { validFlags := 0xF }, cachedState := { validFlags := 0xF } }
        {} DESCRIBE_DEFAULT false).2.1 = [] ∧
     (post_description
        { currentState := { validFlags := 0xF }, cachedState := { validFlags := 0xF } }
        {} DESCRIBE_DEFAULT false).2.2 = NO_ERROR) :=
  ⟨by decide,
   claim_C3 { cachedState := { validFlags := 0xF } }
     { currentState := { validFlags := 0xF }, cachedState := { validFlags := 0xF } }
     {} {} DESCRIBE_DEFAULT (by decide) rfl rfl (by decide) (by decide) (by decide)⟩

/-- Counterexample to C1 as stated: with the session resumed and the
cached descriptor equal to the current one under the `ALL` mask, a
failing keepalive ping makes `begin()` return the ping's error
(`IO_ERROR`), not `SESSION_RESUMED`, contradicting the claim's
unconditional "returns SESSION_RESUMED". -/
theorem claim_C1_counterexample :
    ({ env := { currentState := { validFlags := 0xF },
                cachedState := { validFlags := 0xF } },
       establishResult := .SESSION_RESUMED,
       pingResult := .IO_ERROR } : BeginEnv).establishResult = SESSION_RESUMED ∧
    ({ env := { currentState := { validFlags := 0xF },
                cachedState := { validFlags := 0xF } },
       establishResult := .SESSION_RESUMED,
       pingResult := .IO_ERROR } : BeginEnv).env.cachedState.equalsTo
      ({ env := { currentState := { validFlags := 0xF },
                  cachedState := { validFlags := 0xF } },
         establishResult := .SESSION_RESUMED,
         pingResult := .IO_ERROR } : BeginEnv).env.currentState
      AppStateDescriptor.ALL = true ∧
    (begin { env := { currentState := { validFlags := 0xF },
                      cachedState := { validFlags := 0xF } },
             establishResult := .SESSION_RESUMED,
             pingResult := .IO_ERROR } ({} : ProtoState)).2.2 = IO_ERROR ∧
    IO_ERROR ≠ SESSION_RESUMED := by
  refine ⟨rfl, by decide, ?_, by decide⟩
  decide

/-- C1 (amended): when `channel.establish()` resumes the session, the
cached descriptor equals the current one under the comparison mask
(`ALL` by default, `SYSTEM_DESCRIBE_CRC | PROTOCOL_FLAGS` when
`DEVICE_INITIATED_DESCRIBE` is set), and the keepalive ping succeeds,
`begin()` issues exactly one `MOVE_SESSION` command, sends no HELLO
message, issues one ping, and returns `SESSION_RESUMED` rather than
`NO_ERROR`.  (If the ping fails, its error is returned instead.) -/
theorem claim_C1_amended (benv : BeginEnv) (st : ProtoState)
    (hest : benv.establishResult = SESSION_RESUMED)
    (heq : benv.env.cachedState.equalsTo benv.env.currentState
      (if st.protocol_flags &&& ProtocolFlag.DEVICE_INITIATED_DESCRIBE ≠ 0 then
        AppStateDescriptor.SYSTEM_DESCRIBE_CRC ||| AppStateDescriptor.PROTOCOL_FLAGS
      else AppStateDescriptor.ALL) = true)
    (hping : benv.pingResult = NO_ERROR) :
    (begin benv st).2.1.count (Effect.command .MOVE_SESSION) = 1 ∧
    (∀ f, Effect.helloSend f ∉ (begin benv st).2.1) ∧
    (begin benv st).2.1.count Effect.ping = 1 ∧
    (begin benv st).2.2 = SESSION_RESUMED := by
  unfold begin
  rw [hest]
  rw [if_neg (by simp)]
  rw [if_pos rfl]
  by_cases hd : st.protocol_flags &&& ProtocolFlag.DEVICE_INITIATED_DESCRIBE ≠ 0
  · rw [if_pos hd] at heq
    rw [if_pos hd, if_pos heq, if_neg (by simp [hping])]
    refine ⟨by rfl, ?_, by rfl, rfl⟩
    intro f
    simp
  · rw [if_neg hd] at heq
    rw [if_neg hd, if_pos heq, if_neg (by simp [hping])]
    refine ⟨by rfl, ?_, by rfl, rfl⟩
    intro f
    simp

/-- Witness for the amended C1: session resumed, descriptors equal,
healthy ping — one `MOVE_SESSION`, no HELLO, one ping,
`SESSION_RESUMED` returned. -/
theorem claim_C1_witness :
    ({ env := { currentState := { validFlags := 0xF },
                cachedState := { validFlags := 0xF } },
       establishResult := .SESSION_RESUMED } : BeginEnv).establishResult =
      SESSION_RESUMED ∧
    ({ env := { currentState := { validFlags := 0xF },
                cachedState := { validFlags := 0xF } },
       establishResult := .SESSION_RESUMED } : BeginEnv).env.cachedState.equalsTo
      ({ env := { currentState := { validFlags := 0xF },
                  cachedState := { validFlags := 0xF } },
         establishResult := .SESSION_RESUMED } : BeginEnv).env.currentState
      (if ({} : ProtoState).protocol_flags &&&
            ProtocolFlag.DEVICE_INITIATED_DESCRIBE ≠ 0 then
        AppStateDescriptor.SYSTEM_DESCRIBE_CRC ||| AppStateDescriptor.PROTOCOL_FLAGS
      else AppStateDescriptor.ALL) = true ∧
    ({ env := { currentState := { validFlags := 0xF },
                cachedState := { validFlags := 0xF } },
       establishResult := .SESSION_RESUMED } : BeginEnv).pingResult = NO_ERROR ∧
    ((begin { env := { currentState := { validFlags := 0xF },
                       cachedState := { validFlags := 0xF } },
              establishResult := .SESSION_RESUMED } {}).2.1.count
        (Effect.command .MOVE_SESSION) = 1 ∧
     (∀ f, Effect.helloSend f ∉
        (begin { env := { currentState := { validFlags := 0xF },
                          cachedState := { validFlags := 0xF } },
                 establishResult := .SESSION_RESUMED } {}).2.1) ∧
     (begin { env := { currentState := { validFlags := 0xF },
                       cachedState := { validFlags := 0xF } },
              establishResult := .SESSION_RESUMED } {}).2.1.count Effect.ping = 1 ∧
     (begin { env := { currentState := { validFlags := 0xF },
                       cachedState := { validFlags := 0xF } },
              establishResult := .SESSION_RESUMED } {}).2.2 = SESSION_RESUMED) :=
  ⟨rfl, by decide, rfl,
   claim_C1_amended
     { env := { currentState := { validFlags := 0xF },
                cachedState := { validFlags := 0xF } },
       establishResult := .SESSION_RESUMED }
     {} rfl (by decide) rfl⟩

end Protocol
